import Mathlib

/-!
Verification development for a browser service worker
(`LCMS_Prayer_App`, file `sw.js`, the larger variant).

The worker consists of five event handlers:
  * install      : precache a fixed asset manifest into a versioned cache bucket;
  * activate     : delete all cache buckets other than the current one, then claim clients;
  * fetch        : auth-route bypass, network-first for navigations (with
                   fire-and-forget cache write-back of basic 200 responses),
                   cache-first for everything else;
  * push         : decode a JSON payload into a notification descriptor with defaults;
  * notificationclick : route the click to an existing window (exact-URL match
                   preferred, else first window), navigating and/or focusing it,
                   or open a new window.

The embedding below is a direct translation of the JavaScript source into pure
Lean functions.  Promises are flattened: each handler is a function from its
inputs (network oracle, cache storage state, event data) to an explicit
description of its observable effects.  The unawaited background cache write in
the navigation branch is represented as a pending task value, separate from the
response returned to the page.
-/

/-- `response.type` of the Fetch API (only the values the code compares against
matter; the rest are listed for completeness). -/
inductive ResponseType where
  | basic
  | cors
  | opaqueResponse
  | opaqueredirect
  | errorType
deriving DecidableEq, Repr

/-- An HTTP response as far as the worker observes it: a status code, a
response type and an opaque body. -/
structure Response where
  status : Nat
  rtype : ResponseType
  body : String
deriving DecidableEq, Repr

/-- `response.clone()`: yields a response identical to the original (the
stream-consumption bookkeeping of the browser is not observable here). -/
def Response.clone (r : Response) : Response := r

/-- `request.mode` (only `navigate` is ever tested by the code). -/
inductive Mode where
  | navigate
  | cors
  | noCors
  | sameOrigin
deriving DecidableEq, Repr

/-- A parsed URL: `new URL(event.request.url)`.  `origin` and `pathname` are
the two components the code reads; `href` is their concatenation. -/
structure Url where
  origin : String
  pathname : String
deriving DecidableEq, Repr

def Url.href (u : Url) : String := u.origin ++ u.pathname

/-- An intercepted request: URL plus navigation-vs-subresource mode. -/
structure Request where
  url : Url
  mode : Mode
deriving DecidableEq, Repr

/-- One cache bucket: a mapping from request URL to stored response. -/
abbrev Cache := String → Option Response

def emptyCache : Cache := fun _ => none

/-- `cache.match(url)`. -/
def cacheMatch (c : Cache) (u : String) : Option Response := c u

/-- `cache.put(url, response)`: overwrite the entry for `url`. -/
def cachePut (c : Cache) (u : String) (r : Response) : Cache :=
  fun v => if v = u then some r else c v

/-- The cache storage: a list of named buckets, in enumeration order. -/
abbrev CacheStorage := List (String × Cache)

/-- `caches.keys()`. -/
def cachesKeys (cs : CacheStorage) : List String := cs.map (fun b => b.1)

/-- `caches.delete(name)`: remove the bucket of that name. -/
def cachesDelete (cs : CacheStorage) (name : String) : CacheStorage :=
  cs.filter (fun b => decide (b.1 ≠ name))

/-- `caches.open(name)`: the bucket of that name (bucket names are unique in
the browser's cache storage), or a fresh empty one. -/
def cachesOpen : CacheStorage → String → Cache
  | [], _ => emptyCache
  | b :: rest, name => if b.1 = name then b.2 else cachesOpen rest name

/-- Store a (possibly new) bucket under the given name. -/
def setBucket : CacheStorage → String → Cache → CacheStorage
  | [], name, c => [(name, c)]
  | b :: rest, name, c =>
    if b.1 = name then (name, c) :: rest else b :: setBucket rest name c

/-- `caches.match(url)`: look the URL up in every bucket, first hit wins. -/
def cachesMatch : CacheStorage → String → Option Response
  | [], _ => none
  | b :: rest, u =>
    match cacheMatch b.2 u with
    | some r => some r
    | none => cachesMatch rest u

/-- Write an entry into the named bucket, creating the bucket if absent
(the effect of `caches.open(name).then(c => c.put(u, r))`). -/
def cachesPutIn (cs : CacheStorage) (name u : String) (r : Response) : CacheStorage :=
  setBucket cs name (cachePut (cachesOpen cs name) u r)

/-- `const CACHE_NAME = 'prayer-app-v10'`. -/
def CACHE_NAME : String := "prayer-app-v10"

/-- `const ASSETS_TO_CACHE = [...]`. -/
def ASSETS_TO_CACHE : List String :=
  ["/static/styles.css",
   "/static/banner.jpg",
   "/static/icons/favicon.ico",
   "/static/icons/android-chrome-192x192.png",
   "/static/icons/android-chrome-512x512.png"]

/-- The argument of one `event.respondWith(...)` call, with the promise
flattened: `response` is the value the promise finally delivers to the page
(`none` when it rejects or resolves with no response), and `bgPut` is the
unawaited background cache write scheduled by the navigation branch
(`caches.open(CACHE_NAME).then(cache => cache.put(url, clone))`), recorded as
the pending (url, response) pair. -/
structure RespondAction where
  response : Option Response
  bgPut : Option (String × Response)
deriving DecidableEq, Repr

/-- Run a pending background write against the cache storage. -/
def runBgTask (cs : CacheStorage) (t : Option (String × Response)) : CacheStorage :=
  match t with
  | none => cs
  | some (u, r) => cachesPutIn cs CACHE_NAME u r

/-- JavaScript `s.startsWith(p)`, written on the character lists so that it is
kernel-computable. -/
def strStartsWith (s p : String) : Bool := p.data.isPrefixOf s.data

/-- The auth-route bypass test of the fetch handler:
`url.pathname.startsWith('/login') || url.pathname.startsWith('/authorize')`. -/
def isAuthBypass (req : Request) : Bool :=
  strStartsWith req.url.pathname "/login" || strStartsWith req.url.pathname "/authorize"

/-- The navigation branch of the fetch handler: the argument of its single
`respondWith` call.  `net` is the network oracle (`fetch`); `none` models a
rejected fetch. -/
def navigationRespond (net : String → Option Response) (cs : CacheStorage)
    (req : Request) : RespondAction :=
  match net req.url.href with
  | some response =>
    if response.status = 200 ∧ response.rtype = ResponseType.basic then
      { response := some response,
        bgPut := some (req.url.href, response.clone) }
    else
      { response := some response, bgPut := none }
  | none =>
    { response := cachesMatch cs req.url.href, bgPut := none }

/-- The sub-resource (cache-first) branch:
`caches.match(request).then(response => response || fetch(request))`. -/
def subResourceRespond (net : String → Option Response) (cs : CacheStorage)
    (req : Request) : RespondAction :=
  match cachesMatch cs req.url.href with
  | some response => { response := some response, bgPut := none }
  | none => { response := net req.url.href, bgPut := none }

/-- The fetch event handler.  The result is the list of `respondWith` calls it
makes, in order: `[]` means the handler returned without responding (the
request falls through to default browser handling). -/
def fetchHandler (net : String → Option Response) (cs : CacheStorage)
    (req : Request) : List RespondAction :=
  if isAuthBypass req then
    []
  else if req.mode = Mode.navigate then
    [navigationRespond net cs req]
  else
    [subResourceRespond net cs req]

/-- `cache.addAll(urls)`: fetch every URL and store each response under its
URL; the whole operation fails (`none`) if any fetch fails. -/
def addAll (net : String → Option Response) : List String → Cache → Option Cache
  | [], c => some c
  | u :: rest, c =>
    match net u with
    | none => none
    | some r => addAll net rest (cachePut c u r)

/-- The install event handler:
`caches.open(CACHE_NAME).then(cache => cache.addAll(ASSETS_TO_CACHE))`.
Returns the new cache storage, or `none` when the install fails. -/
def installHandler (net : String → Option Response) (cs : CacheStorage) :
    Option CacheStorage :=
  match addAll net ASSETS_TO_CACHE (cachesOpen cs CACHE_NAME) with
  | none => none
  | some c => some (setBucket cs CACHE_NAME c)

/-- Observable effects of the activate handler, in the order they complete. -/
inductive SWEvent where
  | deleted (name : String)
  | claimedClients
deriving DecidableEq, Repr

/-- The activate event handler: enumerate `caches.keys()`, delete every bucket
whose name differs from `CACHE_NAME` (via `Promise.all`), and only then claim
the clients.  Returns the resulting cache storage together with the ordered
trace of effects. -/
def activateHandler (cs : CacheStorage) : CacheStorage × List SWEvent :=
  let names := cachesKeys cs
  let afterDeletes :=
    names.foldl (fun acc n => if n = CACHE_NAME then acc else cachesDelete acc n) cs
  let deleteEvents :=
    names.filterMap (fun n => if n = CACHE_NAME then none else some (SWEvent.deleted n))
  (afterDeletes, deleteEvents ++ [SWEvent.claimedClients])

/-- A JavaScript value as far as the push handler observes one: the result of
`event.data.json()` (JSON values) plus `undef`, modelling the `undefined`
produced by reading an absent property. -/
inductive Json where
  | undef
  | null
  | bool (b : Bool)
  | num (n : Int)
  | str (s : String)
  | arr (elems : List Json)
  | obj (fields : List (String × Json))

/-- Property lookup in an object literal. -/
def lookupField : List (String × Json) → String → Json
  | [], _ => Json.undef
  | (k, v) :: rest, key => if k = key then v else lookupField rest key

/-- JavaScript property read `j.k`: `undefined` on anything but an object with
that key. -/
def jsGet (j : Json) (key : String) : Json :=
  match j with
  | Json.obj fields => lookupField fields key
  | _ => Json.undef

/-- JavaScript truthiness (`undefined`, `null`, `false`, `0` and the empty
string are falsy; objects and arrays are always truthy). -/
def truthy : Json → Bool
  | Json.undef => false
  | Json.null => false
  | Json.bool b => b
  | Json.num n => decide (n ≠ 0)
  | Json.str s => decide (s ≠ "")
  | Json.arr _ => true
  | Json.obj _ => true

/-- The JavaScript `a || b` operator. -/
def jsOr (a b : Json) : Json := if truthy a then a else b

/-- The `options` object handed to `showNotification`. -/
structure NotificationOptions where
  body : Json
  icon : String
  badge : String
  dataUrl : Json

/-- A displayed notification: the `title` argument plus the options object. -/
structure ShownNotification where
  title : Json
  options : NotificationOptions

/-- The push event handler.  The input is the decoded payload
(`event.data.json()`), or `none` when the event carries no payload
(`if (event.data)` fails); the output is the notification shown, or `none`
when nothing is displayed. -/
def pushHandler (eventData : Option Json) : Option ShownNotification :=
  match eventData with
  | none => none
  | some payload =>
    let data := jsOr (jsGet payload "data") (Json.obj [])
    let title := jsOr (jsGet data "title") (Json.str "Prayer Reminder")
    let body := jsOr (jsGet data "body") (Json.str "It\x27s time for prayer.")
    let url := jsOr (jsGet data "url") (Json.str "/")
    some { title := title,
           options := { body := body,
                        icon := "/static/icons/android-chrome-192x192.png",
                        badge := "/static/icons/android-chrome-192x192.png",
                        dataUrl := url } }

/-- `new URL(raw, origin).href` for the inputs this worker produces: an
already-absolute http(s) URL is kept, a path is resolved against the origin. -/
def resolveUrl (origin raw : String) : String :=
  if strStartsWith raw "http://" || strStartsWith raw "https://" then raw
  else origin ++ raw

/-- An open browser window as the click router sees it: its current URL. -/
structure WindowClient where
  url : String
deriving DecidableEq, Repr

/-- What the click router finally does with the selected window (or without
one). -/
inductive ClickAction where
  | focusClient (w : WindowClient)
  | navigateThenFocus (w : WindowClient) (target : String)
  | openWindow (target : String)
  | noAction
deriving DecidableEq, Repr

/-- Result of the notificationclick handler: the resolved absolute target and
the routing action taken. -/
structure ClickOutcome where
  urlToOpen : String
  action : ClickAction
deriving DecidableEq, Repr

/-- The notificationclick event handler.  `rawUrl` is
`event.notification.data.url`, `origin` is `self.location.origin`, `windows`
is what `clients.matchAll({type:'window', includeUncontrolled:true})` returns,
and `canOpenWindow` is whether `clients.openWindow` exists. -/
def notificationclickHandler (origin rawUrl : String) (windows : List WindowClient)
    (canOpenWindow : Bool) : ClickOutcome :=
  let urlToOpen := resolveUrl origin rawUrl
  let exact := windows.find? (fun c => decide (c.url = urlToOpen))
  let matchingClient :=
    match exact with
    | some c => some c
    | none => windows.head?
  match matchingClient with
  | some c =>
    if c.url ≠ urlToOpen then
      { urlToOpen := urlToOpen, action := ClickAction.navigateThenFocus c urlToOpen }
    else
      { urlToOpen := urlToOpen, action := ClickAction.focusClient c }
  | none =>
    if canOpenWindow then
      { urlToOpen := urlToOpen, action := ClickAction.openWindow urlToOpen }
    else
      { urlToOpen := urlToOpen, action := ClickAction.noAction }

/-! ### Helper lemmas -/

theorem cacheMatch_cachePut_self (c : Cache) (u : String) (r : Response) :
    cacheMatch (cachePut c u r) u = some r := by
  simp [cacheMatch, cachePut]

theorem cacheMatch_cachePut_isSome (c : Cache) (u v : String) (r : Response)
    (h : (cacheMatch c v).isSome) : (cacheMatch (cachePut c u r) v).isSome := by
  by_cases hv : v = u <;> simp [cacheMatch, cachePut, hv] at h ⊢
  exact h

theorem cachesOpen_setBucket (cs : CacheStorage) (name : String) (c : Cache) :
    cachesOpen (setBucket cs name c) name = c := by
  induction cs with
  | nil => simp [setBucket, cachesOpen]
  | cons b rest ih =>
    by_cases hb : b.1 = name <;> simp [setBucket, cachesOpen, hb, ih]

theorem cachesOpen_cachesPutIn (cs : CacheStorage) (name u : String) (r : Response) :
    cachesOpen (cachesPutIn cs name u r) name =
      cachePut (cachesOpen cs name) u r := by
  simp [cachesPutIn, cachesOpen_setBucket]

/-! ### Claim theorems: fetch interceptor -/

/-- C4: for every request whose URL pathname starts with "/login" or
"/authorize", the fetch interceptor returns without calling `respondWith`, so
the request falls through untouched to default browser/network handling. -/
theorem fetch_auth_routes_not_handled (net : String → Option Response)
    (cs : CacheStorage) (req : Request)
    (h : strStartsWith req.url.pathname "/login" = true ∨
         strStartsWith req.url.pathname "/authorize" = true) :
    fetchHandler net cs req = [] := by
  have hb : isAuthBypass req = true := by
    rcases h with h | h <;> simp [isAuthBypass, h]
  simp [fetchHandler, hb]

theorem fetch_auth_routes_not_handled_inst :
    fetchHandler (fun _ => none) []
      { url := { origin := "https://example.com", pathname := "/login" },
        mode := Mode.navigate } = [] :=
  fetch_auth_routes_not_handled _ _ _ (Or.inl (by decide))

/-- C10: the authentication bypass test is a raw string-prefix check on the
URL pathname, not a path-segment match: pathnames such as "/loginhelp" and
"/authorized" are also left unhandled by the interceptor. -/
theorem fetch_bypass_is_raw_string_match (net : String → Option Response)
    (cs : CacheStorage) (origin : String) (m : Mode) :
    fetchHandler net cs
      { url := { origin := origin, pathname := "/loginhelp" }, mode := m } = [] ∧
    fetchHandler net cs
      { url := { origin := origin, pathname := "/authorized" }, mode := m } = [] := by
  have h1 : isAuthBypass
      { url := { origin := origin, pathname := "/loginhelp" }, mode := m } = true := by
    rfl
  have h2 : isAuthBypass
      { url := { origin := origin, pathname := "/authorized" }, mode := m } = true := by
    rfl
  exact ⟨by simp [fetchHandler, h1], by simp [fetchHandler, h2]⟩

/-- C9, counterexample: the interceptor can call `respondWith` with a promise
that delivers no response: a navigation request while the network is down and
the cache has no entry for the URL is answered with the (absent) result of the
cache lookup, so the page receives no response. -/
theorem fetch_can_respond_with_no_response :
    fetchHandler (fun _ => none) []
      { url := { origin := "https://example.com", pathname := "/page" },
        mode := Mode.navigate } =
      [{ response := none, bgPut := none }] := by
  rfl

/-- C9, amended: for every dispatched request the handler either makes no
`respondWith` call (exactly the auth-bypass case) or exactly one; the single
supplied promise yields at most one response, and yields none precisely when
both the network oracle and the cache fail to produce one for the URL. -/
theorem fetch_responds_at_most_once (net : String → Option Response)
    (cs : CacheStorage) (req : Request) :
    (isAuthBypass req = true → fetchHandler net cs req = []) ∧
    (isAuthBypass req = false →
      ∃ a, fetchHandler net cs req = [a] ∧
        (a.response = none ↔
          (net req.url.href = none ∧ cachesMatch cs req.url.href = none))) := by
  constructor
  · intro hb
    simp [fetchHandler, hb]
  · intro hb
    by_cases hm : req.mode = Mode.navigate
    · refine ⟨navigationRespond net cs req, by simp [fetchHandler, hb, hm], ?_⟩
      unfold navigationRespond
      cases hnet : net req.url.href with
      | none => simp
      | some r =>
        by_cases hok : r.status = 200 ∧ r.rtype = ResponseType.basic <;> simp [hok]
    · refine ⟨subResourceRespond net cs req, by simp [fetchHandler, hb, hm], ?_⟩
      unfold subResourceRespond
      cases hc : cachesMatch cs req.url.href with
      | none => simp
      | some r => simp

theorem fetch_responds_at_most_once_inst :
    fetchHandler (fun _ => none) []
      { url := { origin := "https://example.com", pathname := "/login" },
        mode := Mode.navigate } = [] :=
  (fetch_responds_at_most_once (fun _ => none) []
    { url := { origin := "https://example.com", pathname := "/login" },
      mode := Mode.navigate }).1 (by decide)

/-- C1: for every non-bypassed navigation request the interceptor goes to the
network first.  On a successful fetch of a basic 200 response, the original
response is returned to the page while a clone is scheduled as an unawaited
background write into the current bucket under the request URL (running that
task makes the clone retrievable from the current bucket).  On network
failure, the interceptor responds with the exact-URL cache lookup, which is
absent (`none`, a failure delivered to the page) when no entry exists. -/
theorem navigation_network_first (net : String → Option Response)
    (cs : CacheStorage) (req : Request)
    (hb : isAuthBypass req = false) (hm : req.mode = Mode.navigate) :
    (∀ r, net req.url.href = some r → r.status = 200 →
      r.rtype = ResponseType.basic →
      fetchHandler net cs req =
        [{ response := some r, bgPut := some (req.url.href, r.clone) }] ∧
      cacheMatch
        (cachesOpen (runBgTask cs (some (req.url.href, r.clone))) CACHE_NAME)
        req.url.href = some r.clone) ∧
    (net req.url.href = none →
      fetchHandler net cs req =
        [{ response := cachesMatch cs req.url.href, bgPut := none }]) := by
  constructor
  · intro r hr h200 hbasic
    constructor
    · simp [fetchHandler, hb, hm, navigationRespond, hr, h200, hbasic]
    · simp [runBgTask, cachesOpen_cachesPutIn, cacheMatch_cachePut_self]
  · intro hr
    simp [fetchHandler, hb, hm, navigationRespond, hr]

theorem navigation_network_first_inst :
    fetchHandler
        (fun _ => some { status := 200, rtype := ResponseType.basic, body := "page" })
        []
        { url := { origin := "https://example.com", pathname := "/page" },
          mode := Mode.navigate } =
      [{ response :=
           some { status := 200, rtype := ResponseType.basic, body := "page" },
         bgPut :=
           some ("https://example.com/page",
             Response.clone
               { status := 200, rtype := ResponseType.basic, body := "page" }) }] ∧
    cacheMatch
        (cachesOpen
          (runBgTask []
            (some ("https://example.com/page",
              Response.clone
                { status := 200, rtype := ResponseType.basic, body := "page" })))
          CACHE_NAME)
        (Url.href { origin := "https://example.com", pathname := "/page" }) =
      some (Response.clone
        { status := 200, rtype := ResponseType.basic, body := "page" }) :=
  (navigation_network_first
      (fun _ => some { status := 200, rtype := ResponseType.basic, body := "page" })
      []
      { url := { origin := "https://example.com", pathname := "/page" },
        mode := Mode.navigate }
      (by rfl) rfl).1
    { status := 200, rtype := ResponseType.basic, body := "page" } rfl rfl rfl

/-- C5: for every non-navigation, non-bypassed request: when the URL has a
cached entry the interceptor returns that entry unchanged, the outcome is
independent of the network oracle (no network fetch), and no write-back is
scheduled; when the URL is absent from the cache the interceptor returns the
network result directly, again with no write-back. -/
theorem subresource_cache_first (net net2 : String → Option Response)
    (cs : CacheStorage) (req : Request)
    (hb : isAuthBypass req = false) (hm : req.mode ≠ Mode.navigate) :
    (∀ r, cachesMatch cs req.url.href = some r →
      fetchHandler net cs req = [{ response := some r, bgPut := none }] ∧
      fetchHandler net cs req = fetchHandler net2 cs req) ∧
    (cachesMatch cs req.url.href = none →
      fetchHandler net cs req =
        [{ response := net req.url.href, bgPut := none }]) := by
  constructor
  · intro r hr
    constructor
    · simp [fetchHandler, hb, hm, subResourceRespond, hr]
    · simp [fetchHandler, hb, hm, subResourceRespond, hr]
  · intro hr
    simp [fetchHandler, hb, hm, subResourceRespond, hr]

theorem subresource_cache_first_inst :
    fetchHandler (fun _ => none)
        [(CACHE_NAME,
          cachePut emptyCache "https://example.com/static/styles.css"
            { status := 200, rtype := ResponseType.basic, body := "css" })]
        { url := { origin := "https://example.com",
                   pathname := "/static/styles.css" },
          mode := Mode.noCors } =
      [{ response :=
           some { status := 200, rtype := ResponseType.basic, body := "css" },
         bgPut := none }] ∧
    fetchHandler (fun _ => none)
        [(CACHE_NAME,
          cachePut emptyCache "https://example.com/static/styles.css"
            { status := 200, rtype := ResponseType.basic, body := "css" })]
        { url := { origin := "https://example.com",
                   pathname := "/static/styles.css" },
          mode := Mode.noCors } =
      fetchHandler
        (fun _ => some { status := 404, rtype := ResponseType.basic, body := "gone" })
        [(CACHE_NAME,
          cachePut emptyCache "https://example.com/static/styles.css"
            { status := 200, rtype := ResponseType.basic, body := "css" })]
        { url := { origin := "https://example.com",
                   pathname := "/static/styles.css" },
          mode := Mode.noCors } :=
  (subresource_cache_first (fun _ => none)
      (fun _ => some { status := 404, rtype := ResponseType.basic, body := "gone" })
      [(CACHE_NAME,
        cachePut emptyCache "https://example.com/static/styles.css"
          { status := 200, rtype := ResponseType.basic, body := "css" })]
      { url := { origin := "https://example.com",
                 pathname := "/static/styles.css" },
        mode := Mode.noCors }
      (by rfl) (by simp)).1
    { status := 200, rtype := ResponseType.basic, body := "css" } (by rfl)

/-! ### Claim theorems: notification click router -/

theorem urlToOpen_eq_resolve (origin raw : String) (ws : List WindowClient)
    (co : Bool) :
    (notificationclickHandler origin raw ws co).urlToOpen = resolveUrl origin raw := by
  simp only [notificationclickHandler]
  split <;> split <;> rfl

/-- C2: the click router selects (1) the first enumerated window whose URL
equals the resolved target, else (2) the first enumerated window if any is
open, else (3) opens a new window when the capability exists; a selected
window at the target URL is focused without navigation, a selected window
elsewhere is navigated to the target and the result focused; with no windows
and no open-window capability nothing happens. -/
theorem click_router_selection (origin rawUrl : String)
    (windows : List WindowClient) (canOpen : Bool) :
    (∀ w, windows.find?
        (fun c => decide (c.url = resolveUrl origin rawUrl)) = some w →
      (notificationclickHandler origin rawUrl windows canOpen).action =
          ClickAction.focusClient w ∧
        w.url = resolveUrl origin rawUrl) ∧
    (windows.find? (fun c => decide (c.url = resolveUrl origin rawUrl)) = none →
      ∀ w rest, windows = w :: rest →
        (notificationclickHandler origin rawUrl windows canOpen).action =
          ClickAction.navigateThenFocus w (resolveUrl origin rawUrl)) ∧
    (windows = [] → canOpen = true →
      (notificationclickHandler origin rawUrl windows canOpen).action =
        ClickAction.openWindow (resolveUrl origin rawUrl)) ∧
    (windows = [] → canOpen = false →
      (notificationclickHandler origin rawUrl windows canOpen).action =
        ClickAction.noAction) := by
  refine ⟨?_, ?_, ?_, ?_⟩
  · intro w hw
    have hwu : w.url = resolveUrl origin rawUrl := by
      have := List.find?_some hw
      simpa using this
    refine ⟨?_, hwu⟩
    simp only [notificationclickHandler, hw]
    simp [hwu]
  · intro hnone w rest hws
    subst hws
    have hwu : ¬ w.url = resolveUrl origin rawUrl := by
      rw [List.find?_eq_none] at hnone
      have := hnone w (by simp)
      simpa using this
    simp only [notificationclickHandler, hnone, List.head?_cons]
    simp [hwu]
  · intro hws hco
    subst hws
    subst hco
    rfl
  · intro hws hco
    subst hws
    subst hco
    rfl

theorem click_router_selection_inst :
    (notificationclickHandler "https://example.com" "/x"
        [{ url := "https://example.com/other" },
         { url := "https://example.com/x" }] true).action =
      ClickAction.focusClient { url := "https://example.com/x" } ∧
    WindowClient.url { url := "https://example.com/x" } =
      resolveUrl "https://example.com" "/x" :=
  (click_router_selection "https://example.com" "/x"
      [{ url := "https://example.com/other" },
       { url := "https://example.com/x" }] true).1
    { url := "https://example.com/x" } (by decide)

/-! ### Claim theorems: push handler -/

/-- C3, counterexample: for the push payload `{data:{url:"/x"}}` the displayed
notification's descriptor field `data.url` is the raw relative path "/x", not
the absolute URL obtained by resolving it against the worker's origin. -/
theorem descriptor_url_not_resolved :
    (pushHandler (some (Json.obj [("data", Json.obj [("url", Json.str "/x")])]))).map
        (fun s => s.options.dataUrl) = some (Json.str "/x") ∧
    (pushHandler (some (Json.obj [("data", Json.obj [("url", Json.str "/x")])]))).map
        (fun s => s.options.dataUrl) ≠
      some (Json.str (resolveUrl "https://example.com" "/x")) := by
  refine ⟨rfl, fun h => ?_⟩
  rw [show resolveUrl "https://example.com" "/x" = "https://example.com/x"
      from rfl] at h
  have h1 : Json.str "/x" = Json.str "https://example.com/x" := Option.some.inj h
  injection h1 with h2
  exact absurd h2 (by decide)

/-- C3, amended: the displayed notification's descriptor field `data.url`
holds the raw value of the payload's `data.url`; resolution against the
worker's origin to an absolute URL happens only in the notificationclick
handler, whose selected target is `resolveUrl origin rawUrl`. -/
theorem descriptor_url_raw_resolved_on_click (flds : List (String × Json))
    (u : String) (hu : lookupField flds "url" = Json.str u) (hne : u ≠ "")
    (origin : String) (windows : List WindowClient) (canOpen : Bool) :
    ∃ s, pushHandler (some (Json.obj [("data", Json.obj flds)])) = some s ∧
      s.options.dataUrl = Json.str u ∧
      (notificationclickHandler origin u windows canOpen).urlToOpen =
        resolveUrl origin u := by
  refine ⟨_, rfl, ?_, urlToOpen_eq_resolve origin u windows canOpen⟩
  simp [pushHandler, jsOr, jsGet, lookupField, truthy, hu, hne]

theorem descriptor_url_raw_resolved_on_click_inst :
    ∃ s, pushHandler
        (some (Json.obj [("data", Json.obj [("url", Json.str "/x")])])) = some s ∧
      s.options.dataUrl = Json.str "/x" ∧
      (notificationclickHandler "https://example.com" "/x" [] false).urlToOpen =
        resolveUrl "https://example.com" "/x" :=
  descriptor_url_raw_resolved_on_click [("url", Json.str "/x")] "/x" rfl
    (by decide) "https://example.com" [] false

/-- C6, counterexample: the defaults are applied by JavaScript `||`, which
also replaces present-but-falsy fields.  For the payload
`{data:{title:""}}` the field `data.title` is present and equal to the empty
string, yet the displayed notification's title is the default
"Prayer Reminder", not `data.title`. -/
theorem push_default_on_falsy_title :
    jsGet (jsGet (Json.obj [("data", Json.obj [("title", Json.str "")])]) "data")
        "title" = Json.str "" ∧
    (pushHandler (some (Json.obj [("data", Json.obj [("title", Json.str "")])]))).map
        (fun s => s.title) = some (Json.str "Prayer Reminder") ∧
    (pushHandler (some (Json.obj [("data", Json.obj [("title", Json.str "")])]))).map
        (fun s => s.title) ≠ some (Json.str "") := by
  refine ⟨rfl, rfl, fun h => ?_⟩
  have h1 : Json.str "Prayer Reminder" = Json.str "" := Option.some.inj h
  injection h1 with h2
  exact absurd h2 (by decide)

/-- C6, amended: a push event with no payload displays nothing; otherwise the
payload's `data` sub-object is used when truthy (an empty object replaces it
when absent or falsy), and each of title, body and url falls back to its
default ("Prayer Reminder", "It's time for prayer.", "/") exactly when the
corresponding field of `data` is absent or falsy. -/
theorem push_payload_defaults (flds : List (String × Json)) :
    pushHandler none = none ∧
    (∀ payload, jsGet payload "data" = Json.obj flds →
      pushHandler (some payload) = some
        { title :=
            if truthy (lookupField flds "title") then lookupField flds "title"
            else Json.str "Prayer Reminder",
          options :=
            { body :=
                if truthy (lookupField flds "body") then lookupField flds "body"
                else Json.str "It\x27s time for prayer.",
              icon := "/static/icons/android-chrome-192x192.png",
              badge := "/static/icons/android-chrome-192x192.png",
              dataUrl :=
                if truthy (lookupField flds "url") then lookupField flds "url"
                else Json.str "/" } }) ∧
    (∀ payload, truthy (jsGet payload "data") = false →
      pushHandler (some payload) = some
        { title := Json.str "Prayer Reminder",
          options :=
            { body := Json.str "It\x27s time for prayer.",
              icon := "/static/icons/android-chrome-192x192.png",
              badge := "/static/icons/android-chrome-192x192.png",
              dataUrl := Json.str "/" } }) := by
  refine ⟨rfl, ?_, ?_⟩
  · intro payload hd
    simp only [pushHandler]
    rw [hd]
    simp [jsOr, jsGet, truthy]
  · intro payload hd
    simp only [pushHandler, jsOr]
    rw [hd]
    simp [jsGet, truthy, lookupField]

theorem push_payload_defaults_inst :
    pushHandler
        (some (Json.obj [("data", Json.obj
          [("title", Json.str "T"), ("body", Json.str "B"),
           ("url", Json.str "/x")])])) = some
      { title :=
          if truthy (lookupField
              [("title", Json.str "T"), ("body", Json.str "B"),
               ("url", Json.str "/x")] "title") then
            lookupField
              [("title", Json.str "T"), ("body", Json.str "B"),
               ("url", Json.str "/x")] "title"
          else Json.str "Prayer Reminder",
        options :=
          { body :=
              if truthy (lookupField
                  [("title", Json.str "T"), ("body", Json.str "B"),
                   ("url", Json.str "/x")] "body") then
                lookupField
                  [("title", Json.str "T"), ("body", Json.str "B"),
                   ("url", Json.str "/x")] "body"
              else Json.str "It\x27s time for prayer.",
            icon := "/static/icons/android-chrome-192x192.png",
            badge := "/static/icons/android-chrome-192x192.png",
            dataUrl :=
              if truthy (lookupField
                  [("title", Json.str "T"), ("body", Json.str "B"),
                   ("url", Json.str "/x")] "url") then
                lookupField
                  [("title", Json.str "T"), ("body", Json.str "B"),
                   ("url", Json.str "/x")] "url"
              else Json.str "/" } } :=
  (push_payload_defaults
      [("title", Json.str "T"), ("body", Json.str "B"),
       ("url", Json.str "/x")]).2.1
    (Json.obj [("data", Json.obj
      [("title", Json.str "T"), ("body", Json.str "B"),
       ("url", Json.str "/x")])]) rfl

/-! ### Claim theorems: install and activate -/

theorem mem_activate_foldl (names : List String) (acc : CacheStorage)
    (b : String × Cache)
    (hb : b ∈ names.foldl
        (fun acc n => if n = CACHE_NAME then acc else cachesDelete acc n) acc) :
    b ∈ acc ∧ ∀ n ∈ names, n ≠ CACHE_NAME → b.1 ≠ n := by
  induction names generalizing acc with
  | nil =>
    simpa using hb
  | cons m rest ih =>
    have h := ih (if m = CACHE_NAME then acc else cachesDelete acc m) hb
    obtain ⟨h1, h2⟩ := h
    by_cases hm : m = CACHE_NAME
    · rw [if_pos hm] at h1
      refine ⟨h1, ?_⟩
      intro n hn hnC
      rw [List.mem_cons] at hn
      rcases hn with rfl | hn
      · exact absurd hm hnC
      · exact h2 n hn hnC
    · rw [if_neg hm] at h1
      have hmem := List.mem_of_mem_filter h1
      have hname : b.1 ≠ m := by
        have := List.of_mem_filter h1
        simpa using this
      refine ⟨hmem, ?_⟩
      intro n hn hnC
      rw [List.mem_cons] at hn
      rcases hn with rfl | hn
      · exact hname
      · exact h2 n hn hnC

/-- C7: activation deletes every cache bucket whose name differs from the
current version constant — after the deletions only buckets named
`CACHE_NAME` remain in storage — and the `clients.claim()` effect is the last
event of the activation trace, strictly after every deletion. -/
theorem activate_deletes_then_claims (cs : CacheStorage) :
    (∀ b ∈ (activateHandler cs).1, b.1 = CACHE_NAME) ∧
    ((activateHandler cs).2.getLast? = some SWEvent.claimedClients ∧
      ∀ e ∈ (activateHandler cs).2.dropLast, ∃ n,
        e = SWEvent.deleted n ∧ n ≠ CACHE_NAME) := by
  refine ⟨?_, ?_, ?_⟩
  · intro b hb
    have h := mem_activate_foldl (cachesKeys cs) cs b hb
    obtain ⟨h1, h2⟩ := h
    by_contra hne
    exact h2 b.1 (List.mem_map_of_mem (fun x => x.1) h1) hne rfl
  · simp [activateHandler, List.getLast?_concat]
  · intro e he
    rw [show (activateHandler cs).2 =
        ((cachesKeys cs).filterMap (fun n =>
          if n = CACHE_NAME then none else some (SWEvent.deleted n))) ++
          [SWEvent.claimedClients] from rfl,
      List.dropLast_concat] at he
    rw [List.mem_filterMap] at he
    obtain ⟨n, _, hn⟩ := he
    by_cases hnC : n = CACHE_NAME
    · rw [if_pos hnC] at hn
      exact absurd hn (by simp)
    · rw [if_neg hnC] at hn
      exact ⟨n, by simpa using hn.symm, hnC⟩

theorem activate_deletes_then_claims_inst :
    (∀ b ∈ (activateHandler
        [("prayer-app-v9", emptyCache), (CACHE_NAME, emptyCache)]).1,
      b.1 = CACHE_NAME) ∧
    ((activateHandler
        [("prayer-app-v9", emptyCache), (CACHE_NAME, emptyCache)]).2.getLast? =
        some SWEvent.claimedClients ∧
      ∀ e ∈ (activateHandler
          [("prayer-app-v9", emptyCache), (CACHE_NAME, emptyCache)]).2.dropLast,
        ∃ n, e = SWEvent.deleted n ∧ n ≠ CACHE_NAME) :=
  activate_deletes_then_claims
    [("prayer-app-v9", emptyCache), (CACHE_NAME, emptyCache)]

theorem addAll_isSome_iff (net : String → Option Response) (urls : List String)
    (c : Cache) :
    (addAll net urls c).isSome ↔ ∀ u ∈ urls, (net u).isSome := by
  induction urls generalizing c with
  | nil => simp [addAll]
  | cons u rest ih =>
    cases h : net u with
    | none => simp [addAll, h]
    | some r => simp [addAll, h, ih]

theorem addAll_mem_isSome (net : String → Option Response) (urls : List String)
    (c c' : Cache) (h : addAll net urls c = some c') (u : String)
    (hu : u ∈ urls ∨ (cacheMatch c u).isSome) :
    (cacheMatch c' u).isSome := by
  induction urls generalizing c with
  | nil =>
    simp only [addAll, Option.some.injEq] at h
    subst h
    simpa using hu
  | cons v rest ih =>
    rw [addAll] at h
    cases hv : net v with
    | none => rw [hv] at h; exact absurd h (by simp)
    | some r =>
      rw [hv] at h
      refine ih (cachePut c v r) h ?_
      rcases hu with hu | hu
      · rw [List.mem_cons] at hu
        rcases hu with rfl | hu
        · right
          simp [cacheMatch, cachePut]
        · exact Or.inl hu
      · exact Or.inr (cacheMatch_cachePut_isSome c v u r hu)

/-- C8: install opens the bucket named by the current version constant and
precaches the manifest all-or-nothing: the install succeeds exactly when every
manifest fetch succeeds, and after a successful install every manifest URL has
an entry in the current bucket. -/
theorem install_all_or_nothing (net : String → Option Response)
    (cs : CacheStorage) :
    ((installHandler net cs).isSome ↔ ∀ u ∈ ASSETS_TO_CACHE, (net u).isSome) ∧
    (∀ cs', installHandler net cs = some cs' →
      ∀ u ∈ ASSETS_TO_CACHE,
        (cacheMatch (cachesOpen cs' CACHE_NAME) u).isSome) := by
  constructor
  · rw [← addAll_isSome_iff net ASSETS_TO_CACHE (cachesOpen cs CACHE_NAME)]
    unfold installHandler
    cases h : addAll net ASSETS_TO_CACHE (cachesOpen cs CACHE_NAME) <;> simp
  · intro cs' hcs' u hu
    unfold installHandler at hcs'
    cases h : addAll net ASSETS_TO_CACHE (cachesOpen cs CACHE_NAME) with
    | none => rw [h] at hcs'; exact absurd hcs' (by simp)
    | some c =>
      rw [h] at hcs'
      have hc : cs' = setBucket cs CACHE_NAME c := by
        simpa using hcs'.symm
      subst hc
      rw [cachesOpen_setBucket]
      exact addAll_mem_isSome net ASSETS_TO_CACHE _ c h u (Or.inl hu)

theorem install_all_or_nothing_inst :
    (installHandler
        (fun u => some ({ status := 200, rtype := ResponseType.basic, body := u } : Response))
        []).isSome ↔
      ∀ u ∈ ASSETS_TO_CACHE,
        ((fun u => some
          ({ status := 200, rtype := ResponseType.basic, body := u } : Response)) u).isSome :=
  (install_all_or_nothing
      (fun u => some ({ status := 200, rtype := ResponseType.basic, body := u } : Response))
      []).1
